import Mathlib

/-
Shallow embedding of the jsStreams adapter layer (main.go): the
ReadableStream and WritableStream adapters over a JavaScript stream
handle, and the two bridges ReaderToReadableStream and
WriterToWritableStream.  Host behaviour (promise resolution, rejection,
a synchronous exception at each boundary call) is a parameter of each
embedded operation; the embedding computes the returned (n, err) pair,
the final contents of the caller buffer, and the lock and accessor
bookkeeping the Go code performs.  Byte buffers are lists of Nat.
-/

/-- A Go panic value crossing the host boundary: either a Go string (as
raised by an explicit panic call with a string argument) or a host
exception value of type js.Error, which is not a string. -/
inductive PanicVal where
  | str (s : String)
  | jsError (msg : String)
deriving DecidableEq

/-- Description that the verb v of fmt.Errorf produces for a recovered
panic value: a string prints as itself, a js.Error prints via its Error
method. -/
def PanicVal.descr : PanicVal → String
  | .str s => s
  | .jsError m => "JavaScript error: " ++ m

/-- Error values the adapters return: io.EOF, an error built from the
message of a rejected promise, or the error wrapping a recovered panic
description (fmt.Errorf with the panic verb). -/
inductive GoErr where
  | eof
  | transport (msg : String)
  | panicErr (msg : String)
deriving DecidableEq

/-- Semantics of js.CopyBytesToGo and js.CopyBytesToJS: copy
min(len dst, len src) bytes from the front of src over the front of dst,
leaving the tail of dst in place.  Returns the new contents of dst. -/
def copyBytes (dst src : List Nat) : List Nat :=
  src.take (min dst.length src.length) ++ dst.drop (min dst.length src.length)

/-- CopyBytesToJS threading both buffers: the destination receives the
copy, the source is only read and passes through unchanged. -/
def copyBytesToJS (dst src : List Nat) : List Nat × List Nat :=
  (copyBytes dst src, src)

/-- Substring occurrence over character lists, structural in the text. -/
def subListAt (pat : List Char) : List Char → Bool
  | [] => pat.isEmpty
  | c :: rest => pat.isPrefixOf (c :: rest) || subListAt pat rest

/-- Semantics of strings.Contains for the patterns used in the source. -/
def strContains (s pat : String) : Bool :=
  subListAt pat.data s.data

/-- Go type assertion v.(string) applied to the recovered value: it
yields the string when the value is one, and itself raises a run-time
fault when the value is nil (no panic happened) or not a string. -/
def typeAssertToString : Option PanicVal → Except String String
  | none => .error "interface conversion: interface \x7b\x7d is nil, not string"
  | some (.str s) => .ok s
  | some (.jsError _) =>
      .error "interface conversion: interface \x7b\x7d is syscall/js.Error, not string"

/-- Outcome of a Close call as seen by the caller: a normal return
carrying an error value, or a fault that escapes the method. -/
inductive CloseOutcome where
  | ret (err : Option GoErr)
  | panicked (descr : String)
deriving DecidableEq

/-- The text the deferred handlers of both Close methods look for. -/
def magicCloseMsg : String := "Can not close stream after closing or error"

/-- Embedding of ReadableStream.Close.  The parameter is the outcome of
the host cancel call: none when it returns normally, some v when it
raises the panic value v.  The body locks, calls cancel, unlocks and
returns nil; the deferred handler then evaluates recover, type-asserts
it to string, and clears the error only when the text contains
magicCloseMsg.  A failed type assertion is a new fault escaping Close. -/
def ReadableStream.Close (cancelOutcome : Option PanicVal) : CloseOutcome :=
  match typeAssertToString cancelOutcome with
  | .error fault => .panicked fault
  | .ok s =>
      if strContains s magicCloseMsg then .ret none
      else .ret (some (.panicErr s))

/-- Embedding of WritableStream.Close, identical in structure to
ReadableStream.Close with the host close call in place of cancel. -/
def WritableStream.Close (closeOutcome : Option PanicVal) : CloseOutcome :=
  match typeAssertToString closeOutcome with
  | .error fault => .panicked fault
  | .ok s =>
      if strContains s magicCloseMsg then .ret none
      else .ret (some (.panicErr s))

/-- How the host settles one Read call: a synchronous exception from
getReader, a synchronous exception from the read call on the reader, a
promise resolution carrying the done flag and a chunk, a promise
rejection carrying a message, or a resolution followed by an exception
from releaseLock. -/
inductive ReadEvent where
  | faultAtGetReader (v : PanicVal)
  | faultAtReadCall (v : PanicVal)
  | resolved (done : Bool) (chunk : List Nat)
  | rejected (msg : String)
  | resolvedThenFaultAtRelease (done : Bool) (chunk : List Nat) (v : PanicVal)
deriving DecidableEq

/-- Result of one Read call: the returned pair (n, err), the contents of
the caller buffer after the call, whether the mutex of the adapter is
still held after Read returns, and whether the reader accessor was
acquired and released during the call. -/
structure ReadResult where
  n : Nat
  err : Option GoErr
  buf : List Nat
  lockHeld : Bool
  readerAcquired : Bool
  readerReleased : Bool
deriving DecidableEq

/-- Embedding of ReadableStream.Read over one host event.  The body
locks the mutex, acquires a byob reader, issues the read sized to the
caller buffer and blocks on the wait group until the promise settles;
the resolution callback returns io.EOF when done is set or the chunk
is empty, and otherwise copies the chunk into the caller buffer and
records its length; the rejection callback records the message.  Only
after the wait does the body release the reader and unlock.  The
deferred handler converts a recovered panic into an error value but
touches neither the count nor the lock nor the reader. -/
def ReadableStream.Read (p : List Nat) (ev : ReadEvent) : ReadResult :=
  match ev with
  | .faultAtGetReader v =>
      { n := 0, err := some (.panicErr v.descr), buf := p,
        lockHeld := true, readerAcquired := false, readerReleased := false }
  | .faultAtReadCall v =>
      { n := 0, err := some (.panicErr v.descr), buf := p,
        lockHeld := true, readerAcquired := true, readerReleased := false }
  | .resolved done chunk =>
      if done = true ∨ chunk.length = 0 then
        { n := 0, err := some .eof, buf := p,
          lockHeld := false, readerAcquired := true, readerReleased := true }
      else
        { n := chunk.length, err := none, buf := copyBytes p chunk,
          lockHeld := false, readerAcquired := true, readerReleased := true }
  | .rejected msg =>
      { n := 0, err := some (.transport msg), buf := p,
        lockHeld := false, readerAcquired := true, readerReleased := true }
  | .resolvedThenFaultAtRelease done chunk v =>
      if done = true ∨ chunk.length = 0 then
        { n := 0, err := some (.panicErr v.descr), buf := p,
          lockHeld := true, readerAcquired := true, readerReleased := false }
      else
        { n := chunk.length, err := some (.panicErr v.descr), buf := copyBytes p chunk,
          lockHeld := true, readerAcquired := true, readerReleased := false }

/-- How the host settles one Write call: a synchronous exception from
getWriter, a synchronous exception from reading the ready promise, a
resolution of the write promise, a rejection of it, or a resolution
followed by an exception from releaseLock. -/
inductive WriteEvent where
  | faultAtGetWriter (v : PanicVal)
  | faultAtReadyCall (v : PanicVal)
  | resolved
  | rejected (msg : String)
  | resolvedThenFaultAtRelease (v : PanicVal)
deriving DecidableEq

/-- Result of one Write call: the returned pair (n, err), the caller
buffer after the call, the js-side transfer buffer when one was built,
and the lock and writer accessor bookkeeping. -/
structure WriteResult where
  n : Nat
  err : Option GoErr
  goBuf : List Nat
  jsBuf : Option (List Nat)
  lockHeld : Bool
  writerReleased : Bool
deriving DecidableEq

/-- Embedding of WritableStream.Write over one host event.  The ready
callback builds a fresh Uint8Array of the caller buffer length, copies
the caller bytes into it (the caller buffer is only a copy source), and
submits it; the write resolution records n as the full caller length,
the rejection records the message and leaves n at zero.  The body then
releases the writer and unlocks; the deferred handler converts a
recovered panic into an error value only. -/
def WritableStream.Write (p : List Nat) (ev : WriteEvent) : WriteResult :=
  match ev with
  | .faultAtGetWriter v =>
      { n := 0, err := some (.panicErr v.descr), goBuf := p, jsBuf := none,
        lockHeld := true, writerReleased := false }
  | .faultAtReadyCall v =>
      { n := 0, err := some (.panicErr v.descr), goBuf := p, jsBuf := none,
        lockHeld := true, writerReleased := false }
  | .resolved =>
      let s := copyBytesToJS (List.replicate p.length 0) p
      { n := p.length, err := none, goBuf := s.2, jsBuf := some s.1,
        lockHeld := false, writerReleased := true }
  | .rejected msg =>
      let s := copyBytesToJS (List.replicate p.length 0) p
      { n := 0, err := some (.transport msg), goBuf := s.2, jsBuf := some s.1,
        lockHeld := false, writerReleased := true }
  | .resolvedThenFaultAtRelease v =>
      let s := copyBytesToJS (List.replicate p.length 0) p
      { n := p.length, err := some (.panicErr v.descr), goBuf := s.2, jsBuf := some s.1,
        lockHeld := true, writerReleased := false }

/-- One observable action of the pull hook on its controller and its
completion token. -/
inductive PullStep where
  | enqueue (chunk : List Nat)
  | close
  | resolve
deriving DecidableEq

/-- Embedding of the pull hook installed by ReaderToReadableStream.  The
parameter is the outcome of io.ReadAll on the wrapped reader.  On an
error the hook raises a fault with the error description and performs no
controller action.  On success with an empty drain it closes the
controller and returns without resolving; otherwise it copies the drain
into a fresh js buffer, enqueues it, closes the controller and resolves
the completion token.  The result lists the steps in order, paired with
the raised fault description when there is one. -/
def ReaderToReadableStream.pull (readAllResult : Except String (List Nat)) :
    List PullStep × Option String :=
  match readAllResult with
  | .error e => ([], some e)
  | .ok buffer =>
      if buffer.length = 0 then ([PullStep.close], none)
      else
        let s := copyBytesToJS (List.replicate buffer.length 0) buffer
        ([PullStep.enqueue s.1, PullStep.close, PullStep.resolve], none)

/-- Chunks enqueued by a sequence of pull steps, in order. -/
def pullEnqueued (steps : List PullStep) : List (List Nat) :=
  steps.filterMap fun s =>
    match s with
    | .enqueue b => some b
    | _ => none

/-- Whether a sequence of pull steps closes the controller. -/
def pullClosed (steps : List PullStep) : Bool :=
  steps.any fun s =>
    match s with
    | .close => true
    | _ => false

/-- Embedding of the write hook installed by WriterToWritableStream.
The hook allocates a Go buffer of the chunk length, copies the js chunk
into it, and invokes the blocking Write of the wrapped writer, here a
parameter; a failed Write raises a fault with the error description,
a successful one resolves the completion token.  On success the result
carries the bytes that were delivered to the wrapped writer. -/
def WriterToWritableStream.write (chunk : List Nat)
    (wWrite : List Nat → Except String Nat) : Except String (List Nat) :=
  let buffer := copyBytes (List.replicate chunk.length 0) chunk
  match wWrite buffer with
  | .error e => .error e
  | .ok _ => .ok buffer

/-- Copying a buffer into a fresh destination of its own length yields
the buffer itself. -/
theorem copyBytes_replicate (src : List Nat) (a : Nat) :
    copyBytes (List.replicate src.length a) src = src := by
  simp [copyBytes]

/-- C1: calling close twice in sequence is claimed to return success both
times; the code instead panics on the clean path.  Evaluated at the
failing input: when the host cancel call completes without raising (the
first close of an open stream), the recovered value is nil and the
string type assertion in the deferred handler itself raises a fault that
escapes Close.  The second conjunct shows the intended swallow does fire
when the fault value is a Go string containing the expected text. -/
theorem c1_readable_close_panics_on_clean_cancel :
    ReadableStream.Close none =
      CloseOutcome.panicked "interface conversion: interface \x7b\x7d is nil, not string"
    ∧ ReadableStream.Close (some (.str magicCloseMsg)) = CloseOutcome.ret none := by
  constructor
  · rfl
  · decide

/-- C2: every public operation is claimed to return an ordinary error
value, with no raised fault escaping; evaluated at the failing input,
WritableStream.Close on a host close call that returns normally lets the
fault of the nil string assertion escape to the caller. -/
theorem c2_writable_close_fault_escapes :
    WritableStream.Close none =
      CloseOutcome.panicked "interface conversion: interface \x7b\x7d is nil, not string" := by
  rfl

/-- C3: for a caller buffer longer than the chunk the host delivers, a
resolution with a nonempty chunk of m bytes and done unset returns
(m, success) at once, and a following resolution with done set returns
(0, EndOfData); the embedding settles each Read from the single host
event, so the call never waits for further bytes. -/
theorem c3_read_returns_short_chunk_then_eof (p chunk : List Nat)
    (hm : 0 < chunk.length) (hk : chunk.length < p.length) :
    (ReadableStream.Read p (.resolved false chunk)).n = chunk.length
  ∧ (ReadableStream.Read p (.resolved false chunk)).err = none
  ∧ (ReadableStream.Read p (.resolved true [])).n = 0
  ∧ (ReadableStream.Read p (.resolved true [])).err = some GoErr.eof := by
  have h0 : chunk.length ≠ 0 := Nat.pos_iff_ne_zero.mp hm
  simp [ReadableStream.Read, h0]

/-- Witness for C3 at a concrete buffer of three bytes receiving a chunk
of two. -/
theorem c3_read_returns_short_chunk_then_eof_witness :
    (ReadableStream.Read [0, 0, 0] (.resolved false [7, 5])).n = 2
  ∧ (ReadableStream.Read [0, 0, 0] (.resolved false [7, 5])).err = none
  ∧ (ReadableStream.Read [0, 0, 0] (.resolved true [])).n = 0
  ∧ (ReadableStream.Read [0, 0, 0] (.resolved true [])).err = some GoErr.eof :=
  c3_read_returns_short_chunk_then_eof [0, 0, 0] [7, 5] (by decide) (by decide)

/-- C4: Write returns the full caller length with no error on
resolution, a nonempty error on rejection, and on no event whatsoever a
count short of the caller length together with a nil error. -/
theorem c4_write_full_count_or_error (p : List Nat) (ev : WriteEvent) :
    ((WritableStream.Write p .resolved).n = p.length
      ∧ (WritableStream.Write p .resolved).err = none)
  ∧ (∀ msg, (WritableStream.Write p (.rejected msg)).err = some (.transport msg))
  ∧ ((WritableStream.Write p ev).err = none → (WritableStream.Write p ev).n = p.length) := by
  refine ⟨⟨rfl, rfl⟩, fun msg => rfl, ?_⟩
  cases ev <;> simp [WritableStream.Write]

/-- Witness for C4 at a concrete two-byte buffer and a resolving host. -/
theorem c4_write_full_count_or_error_witness :
    (WritableStream.Write [1, 2] .resolved).err = none
  ∧ (WritableStream.Write [1, 2] .resolved).n = 2 :=
  ⟨by decide, (c4_write_full_count_or_error [1, 2] .resolved).2.2 (by decide)⟩

/-- C5: whatever the host does, the caller buffer handed to Write reads
back unchanged after the call; the only copy Write performs has the
caller buffer as its source, never as its destination. -/
theorem c5_write_preserves_caller_buffer (p : List Nat) (ev : WriteEvent) :
    (WritableStream.Write p ev).goBuf = p := by
  cases ev <;> rfl

/-- C6 counterexample: when the read call on the acquired reader raises
a fault, Read returns through its deferred handler with the reader still
unreleased and the mutex still held, against the claim that both are
released on every return. -/
theorem c6_cex_read_fault_leaves_lock_held :
    (ReadableStream.Read [0, 0, 0] (.faultAtReadCall (.str "boom"))).err
        = some (.panicErr "boom")
  ∧ (ReadableStream.Read [0, 0, 0] (.faultAtReadCall (.str "boom"))).readerAcquired = true
  ∧ (ReadableStream.Read [0, 0, 0] (.faultAtReadCall (.str "boom"))).readerReleased = false
  ∧ (ReadableStream.Read [0, 0, 0] (.faultAtReadCall (.str "boom"))).lockHeld = true := by
  decide

/-- C6 amended: on every return where the host settles the read, by
resolution with data or end-of-data or by rejection, the reader accessor
is released and the mutex unlocked; on a return through the deferred
fault handler they are not. -/
theorem c6_read_releases_on_host_settled (p chunk : List Nat) (done : Bool) (msg : String) :
    ((ReadableStream.Read p (.resolved done chunk)).lockHeld = false
      ∧ (ReadableStream.Read p (.resolved done chunk)).readerReleased = true)
  ∧ ((ReadableStream.Read p (.rejected msg)).lockHeld = false
      ∧ (ReadableStream.Read p (.rejected msg)).readerReleased = true) := by
  refine ⟨?_, ⟨rfl, rfl⟩⟩
  by_cases h : done = true ∨ chunk.length = 0
  · simp only [ReadableStream.Read]
    rw [if_pos h]
    exact ⟨rfl, rfl⟩
  · simp only [ReadableStream.Read]
    rw [if_neg h]
    exact ⟨rfl, rfl⟩

/-- C7: the bytes a payload delivers through the write hook of the sink
bridge to an accepting blocking consumer are the payload itself, and
feeding those bytes back as the drain of the pull hook of the source
bridge enqueues exactly the payload and raises no fault, for every
payload, the empty one included. -/
theorem c7_sink_source_roundtrip (payload : List Nat) :
    WriterToWritableStream.write payload (fun b => Except.ok b.length)
        = Except.ok payload
  ∧ (pullEnqueued (ReaderToReadableStream.pull (Except.ok payload)).fst).flatten = payload
  ∧ (ReaderToReadableStream.pull (Except.ok payload)).snd = none := by
  have hcopy : copyBytes (List.replicate payload.length 0) payload = payload :=
    copyBytes_replicate payload 0
  refine ⟨?_, ?_, ?_⟩
  · simp [WriterToWritableStream.write, hcopy]
  · by_cases h : payload.length = 0
    · simp [ReaderToReadableStream.pull, h, pullEnqueued, List.length_eq_zero.mp h]
    · simp [ReaderToReadableStream.pull, h, pullEnqueued, copyBytesToJS, hcopy]
  · by_cases h : payload.length = 0 <;> simp [ReaderToReadableStream.pull, h]

/-- C8 counterexample: a fault raised by releaseLock after the read
resolved with two bytes is caught at the boundary of Read, which then
returns the already recorded count of two with the fault error, not the
count zero the claim states. -/
theorem c8_cex_fault_after_resolution_keeps_count :
    (ReadableStream.Read [0, 0, 0]
        (.resolvedThenFaultAtRelease false [1, 2] (.str "boom"))).n = 2
  ∧ (ReadableStream.Read [0, 0, 0]
        (.resolvedThenFaultAtRelease false [1, 2] (.str "boom"))).err
      = some (.panicErr "boom") := by
  decide

/-- C8 amended: a fault caught at the boundary of Read is returned as
the panic error with the description of the fault; the count is zero
when the fault precedes the resolution (at reader acquisition or read
initiation), while a fault after a resolution returns whatever count the
resolution recorded. -/
theorem c8_read_fault_error_and_count (p chunk : List Nat) (v : PanicVal) (done : Bool) :
    ((ReadableStream.Read p (.faultAtGetReader v)).n = 0
      ∧ (ReadableStream.Read p (.faultAtGetReader v)).err = some (.panicErr v.descr))
  ∧ ((ReadableStream.Read p (.faultAtReadCall v)).n = 0
      ∧ (ReadableStream.Read p (.faultAtReadCall v)).err = some (.panicErr v.descr))
  ∧ ((ReadableStream.Read p (.resolvedThenFaultAtRelease done chunk v)).err
        = some (.panicErr v.descr)
      ∧ (ReadableStream.Read p (.resolvedThenFaultAtRelease done chunk v)).n
        = if done = true ∨ chunk.length = 0 then 0 else chunk.length) := by
  refine ⟨⟨rfl, rfl⟩, ⟨rfl, rfl⟩, ?_, ?_⟩
  · by_cases h : done = true ∨ chunk.length = 0
    · simp only [ReadableStream.Read]
      rw [if_pos h]
    · simp only [ReadableStream.Read]
      rw [if_neg h]
  · by_cases h : done = true ∨ chunk.length = 0
    · simp only [ReadableStream.Read]
      rw [if_pos h, if_pos h]
    · simp only [ReadableStream.Read]
      rw [if_neg h, if_neg h]

/-- C9: whenever the host resolves a read with a chunk of length zero,
Read returns (0, EndOfData), whatever the done flag says. -/
theorem c9_read_zero_length_chunk_is_eof (p chunk : List Nat) (done : Bool)
    (h : chunk.length = 0) :
    (ReadableStream.Read p (.resolved done chunk)).n = 0
  ∧ (ReadableStream.Read p (.resolved done chunk)).err = some GoErr.eof := by
  simp [ReadableStream.Read, h]

/-- Witness for C9 at an empty chunk with the done flag unset. -/
theorem c9_read_zero_length_chunk_is_eof_witness :
    (ReadableStream.Read [5, 5] (.resolved false [])).n = 0
  ∧ (ReadableStream.Read [5, 5] (.resolved false [])).err = some GoErr.eof :=
  c9_read_zero_length_chunk_is_eof [5, 5] [] false rfl

/-- C10 counterexample: a pull invocation whose drain of the wrapped
reader fails raises a fault and performs no controller action at all, so
it does not close the controller, against the claim that every
invocation closes it. -/
theorem c10_cex_pull_fault_skips_close :
    ReaderToReadableStream.pull (Except.error "disk error") = ([], some "disk error")
  ∧ pullClosed (ReaderToReadableStream.pull (Except.error "disk error")).fst = false := by
  decide

/-- C10 amended: every pull invocation whose drain succeeds closes the
controller, after enqueuing the drained data exactly when it is
nonempty, and no invocation of the hook ever enqueues more than one
chunk. -/
theorem c10_pull_drain_success_closes (data : List Nat) (r : Except String (List Nat)) :
    ReaderToReadableStream.pull (Except.ok data) =
      ((if data.length = 0 then [PullStep.close]
        else [PullStep.enqueue data, PullStep.close, PullStep.resolve]), none)
  ∧ (pullEnqueued (ReaderToReadableStream.pull r).fst).length ≤ 1 := by
  constructor
  · by_cases h : data.length = 0
    · simp [ReaderToReadableStream.pull, h]
    · simp [ReaderToReadableStream.pull, h, copyBytesToJS, copyBytes_replicate]
  · cases r with
    | error e => simp [ReaderToReadableStream.pull, pullEnqueued]
    | ok buffer =>
        by_cases h : buffer.length = 0 <;>
          simp [ReaderToReadableStream.pull, h, pullEnqueued, copyBytesToJS]
